import Mathlib

/-!
Verification of the jaundice-rate article pipeline (`main.py`, `server.py`).

The pipeline `process_article` drives one article through
fetch → extract → tokenize → score and classifies the outcome into a
`ProcessingStatus`.  The batch handler `handle_root_get_request` spawns one
pipeline per requested URL inside an anyio task group and serialises the
collected results.

Shallow embedding conventions:
* The behaviour of the external collaborators (network fetch, the
  `inosmi_ru` sanitizer, `split_by_words`) is modelled as an environment:
  the outcome each awaited call would produce for this run.  This mirrors
  the spec's view of them as abstract capabilities.
* Exceptions that `process_article` does not catch are modelled with
  `Except.error`: they escape the pipeline, no result tuple is appended,
  and the anyio task group aborts the whole batch and re-raises.
* Time is modelled with `ℚ` (the `remaining` attribute of a timeout
  manager and the recorded `processing_time`).
* The anyio task group schedules the pipelines concurrently; the shared
  output list receives the appends in a nondeterministic order.  The batch
  is modelled as collecting the results in spawn order, which is a sound
  representative for the claims below (they are about lengths, multisets
  of URLs and per-pipeline statuses, never about the order of the list).
-/

/-- Status taxonomy of one processed article (main.py lines 23-27). -/
inductive ProcessingStatus where
  | OK
  | FETCH_ERROR
  | PARSING_ERROR
  | TIMEOUT
  deriving DecidableEq, Repr

/-- Python `ProcessingStatus.<v>.name` as serialised at main.py line 136. -/
def ProcessingStatus.name : ProcessingStatus → String
  | .OK => "OK"
  | .FETCH_ERROR => "FETCH_ERROR"
  | .PARSING_ERROR => "PARSING_ERROR"
  | .TIMEOUT => "TIMEOUT"

/-- Module constant `TIMEOUT_SECONDS = 5` (main.py line 20). -/
def TIMEOUT_SECONDS : ℚ := 5

/-- Deadline handed to the `timeout(...)` context of the fetch stage
(main.py line 58); the source passes the module constant. -/
def fetch_timeout : ℚ := TIMEOUT_SECONDS

/-- Deadline handed to the `timeout(...)` context of the tokenize stage
(main.py line 84); the source passes the same module constant. -/
def tokenize_timeout : ℚ := TIMEOUT_SECONDS

/-- Outcome of one run of `await fetch(session, url)` under the fetch
timeout context (main.py lines 42-45 and 57-66).  `success` carries the
wall time the fetch consumed (never read by the code).  `raise_for_status`
turns a non-success HTTP response into `aiohttp.ClientResponseError`,
represented by `clientResponseError`.  `timeoutError expired` is
`asyncio.TimeoutError` together with the `expired` flag of the stage's own
timeout manager. -/
inductive FetchOutcome where
  | success (html : String) (elapsed : ℚ)
  | clientConnectorError
  | invalidURL
  | clientResponseError
  | timeoutError (expired : Bool)
  deriving DecidableEq, Repr

/-- Outcome of one call of a sanitizer `sanitizer_func(html, plaintext=True)`
(main.py line 75): plain text, or `adapters.exceptions.ArticleNotFound`. -/
inductive SanitizeOutcome where
  | success (plain_text : String)
  | articleNotFound
  deriving DecidableEq, Repr

/-- Outcome of `await split_by_words(morph, plain_text)` under the tokenize
timeout context (main.py lines 84-85).  `success` carries the produced
words and the `remaining` attribute of the tokenize timeout manager, read
at main.py line 98. -/
inductive TokenizeOutcome where
  | success (article_words : List String) (remaining : ℚ)
  | timeoutError (expired : Bool)
  deriving DecidableEq, Repr

/-- Exceptions that escape `process_article` uncaught: a
`ClientResponseError` from `raise_for_status` matches no `except` clause
(main.py lines 60-63), and an `asyncio.TimeoutError` whose own manager has
not expired is re-raised (main.py lines 64-65 and 87-88). -/
inductive EscapedException where
  | clientResponseError
  | timeoutNotExpired
  deriving DecidableEq, Repr

/-- Environment of one pipeline run: what its own awaited calls would
produce.  `tokenize` is the behaviour of `split_by_words` as a function of
the plain text handed to it. -/
structure Env where
  fetch : FetchOutcome
  tokenize : String → TokenizeOutcome

/-- Modelled from the spec: `calculate_jaundice_rate` lives in
`text_tools.py`, which is not under src/; §4 SCORING specifies
`100 × (count of tokens in the lexicon) / max(1, total token count)`,
rounded to two decimal digits. -/
def calculate_jaundice_rate (article_words charged_words : List String) : ℚ :=
  let charged := (article_words.filter fun w => charged_words.contains w).length
  let rate : ℚ := 100 * (charged : ℚ) / ((max 1 article_words.length : ℕ) : ℚ)
  (round (rate * 100) : ℚ) / 100

/-- One tuple appended to `processing_outputs` (main.py line 101). -/
structure ResultTuple where
  url : String
  status : ProcessingStatus
  score : Option ℚ
  word_number : Option Nat
  processing_time : Option ℚ
  deriving DecidableEq, Repr

/-- Sanitize block of `process_article` (main.py lines 72-80): with a
sanitizer the plain text is the sanitizer's output and `ArticleNotFound`
yields `none` (status `PARSING_ERROR`); without a sanitizer the raw html is
used unchanged. -/
def plain_text_of (sanitizer_func : Option (String → SanitizeOutcome))
    (html : String) : Option String :=
  match sanitizer_func with
  | some f =>
      match f html with
      | .success t => some t
      | .articleNotFound => none
  | none => some html

/-- One run of `process_article` (main.py lines 48-101) for the given
environment.  `Except.ok r` means the run completed and appended exactly
the tuple `r` to `processing_outputs`; `Except.error e` means the
exception `e` escaped the pipeline and nothing was appended. -/
def process_article (charged_words : List String) (url : String) (env : Env)
    (sanitizer_func : Option (String → SanitizeOutcome)) :
    Except EscapedException ResultTuple :=
  match env.fetch with
  | .clientConnectorError => .ok ⟨url, .FETCH_ERROR, none, none, none⟩
  | .invalidURL => .ok ⟨url, .FETCH_ERROR, none, none, none⟩
  | .clientResponseError => .error .clientResponseError
  | .timeoutError false => .error .timeoutNotExpired
  | .timeoutError true => .ok ⟨url, .TIMEOUT, none, none, none⟩
  | .success html _elapsed =>
      match plain_text_of sanitizer_func html with
      | none => .ok ⟨url, .PARSING_ERROR, none, none, none⟩
      | some plain_text =>
          match env.tokenize plain_text with
          | .timeoutError false => .error .timeoutNotExpired
          | .timeoutError true =>
              .ok ⟨url, .TIMEOUT, none, none, some tokenize_timeout⟩
          | .success article_words remaining =>
              .ok ⟨url, .OK,
                   some (calculate_jaundice_rate article_words charged_words),
                   some article_words.length,
                   some (tokenize_timeout - remaining)⟩

/-- One entry of the JSON response array (main.py lines 135-140); the
`processing_time` component of the tuple is dropped (line 134). -/
structure UrlResult where
  status : String
  url : String
  score : Option ℚ
  words_count : Option Nat
  deriving DecidableEq, Repr

/-- Responses `handle_root_get_request` can produce: the empty JSON object
for a missing or empty `urls` parameter (main.py line 108), the
`HTTPBadRequest` with a JSON error body (lines 114-117), or the JSON array
of results (line 144). -/
inductive RequestResponse where
  | emptyJson
  | badRequest (error : String)
  | jsonArray (results : List UrlResult)
  deriving DecidableEq, Repr

/-- Character-level translation of Python `str.split(',')`: groups of
characters between commas, keeping empty groups. -/
def split_chars : List Char → List (List Char)
  | [] => [[]]
  | c :: cs =>
      match split_chars cs with
      | [] => [[]]
      | group :: groups =>
          if c = ',' then [] :: group :: groups
          else (c :: group) :: groups

/-- Python `urls_parameter_value.split(',')` (main.py line 110). -/
def split_on_comma (s : String) : List String :=
  (split_chars s.data).map fun l => ⟨l⟩

/-- Whether a handler outcome is a client-error response with a JSON error
body (the `HTTPBadRequest` raised at main.py lines 114-117).  An escaping
exception is not such a response (aiohttp reports it as a server error). -/
def is_client_error : Except EscapedException RequestResponse → Bool
  | .ok (.badRequest _) => true
  | _ => false

/-- The anyio task group of main.py lines 121-131: one `process_article`
pipeline per requested URL, the pipeline at position `i` running under
environment `envs i`.  All appended tuples are collected; if any pipeline
raises, the task group aborts the batch and re-raises. -/
def run_pipelines (charged_words : List String)
    (sanitizer_func : Option (String → SanitizeOutcome)) :
    List String → (Nat → Env) → Except EscapedException (List ResultTuple)
  | [], _ => .ok []
  | url :: urls, envs =>
      match process_article charged_words url (envs 0) sanitizer_func with
      | .error e => .error e
      | .ok r =>
          match run_pipelines charged_words sanitizer_func urls
              (fun n => envs (n + 1)) with
          | .error e => .error e
          | .ok rs => .ok (r :: rs)

/-- `handle_root_get_request` (main.py lines 104-144).  `urls_parameter` is
`request.query.get('urls')`; the Python truthiness test treats both `None`
and the empty string as absent.  `inosmi` is the behaviour of
`SANITIZERS['inosmi_ru']` (adapters are outside src/), passed to every
pipeline (line 130). -/
def handle_root_get_request (charged_words : List String)
    (inosmi : String → SanitizeOutcome) (urls_parameter : Option String)
    (envs : Nat → Env) : Except EscapedException RequestResponse :=
  match urls_parameter with
  | none => .ok .emptyJson
  | some v =>
      if v = "" then .ok .emptyJson
      else
        let requested_urls := split_on_comma v
        if requested_urls.length > 10 then
          .ok (.badRequest "too many urls in request, should be 10 or less")
        else
          match run_pipelines charged_words (some inosmi) requested_urls envs with
          | .error e => .error e
          | .ok results =>
              .ok (.jsonArray (results.map fun r =>
                ⟨r.status.name, r.url, r.score, r.word_number⟩))


/-! ## Shared lemmas -/

/-- Exhaustive shape analysis of a completed `process_article` run: the
five appended tuples and the environment conditions producing each. -/
theorem process_article_ok_cases (cw : List String) (url : String) (env : Env)
    (san : Option (String → SanitizeOutcome)) (r : ResultTuple)
    (h : process_article cw url env san = .ok r) :
    ((env.fetch = .clientConnectorError ∨ env.fetch = .invalidURL) ∧
       r = ⟨url, .FETCH_ERROR, none, none, none⟩) ∨
    (env.fetch = .timeoutError true ∧ r = ⟨url, .TIMEOUT, none, none, none⟩) ∨
    (∃ html elapsed, env.fetch = .success html elapsed ∧
       plain_text_of san html = none ∧
       r = ⟨url, .PARSING_ERROR, none, none, none⟩) ∨
    (∃ html elapsed t, env.fetch = .success html elapsed ∧
       plain_text_of san html = some t ∧ env.tokenize t = .timeoutError true ∧
       r = ⟨url, .TIMEOUT, none, none, some tokenize_timeout⟩) ∨
    (∃ html elapsed t ws rem, env.fetch = .success html elapsed ∧
       plain_text_of san html = some t ∧ env.tokenize t = .success ws rem ∧
       r = ⟨url, .OK, some (calculate_jaundice_rate ws cw), some ws.length,
            some (tokenize_timeout - rem)⟩) := by
  obtain ⟨f, tok⟩ := env
  cases f with
  | clientConnectorError =>
      simp only [process_article] at h
      injection h with h
      exact Or.inl ⟨Or.inl rfl, h.symm⟩
  | invalidURL =>
      simp only [process_article] at h
      injection h with h
      exact Or.inl ⟨Or.inr rfl, h.symm⟩
  | clientResponseError =>
      simp only [process_article] at h
      exact Except.noConfusion h
  | timeoutError expired =>
      cases expired with
      | false =>
          simp only [process_article] at h
          exact Except.noConfusion h
      | true =>
          simp only [process_article] at h
          injection h with h
          exact Or.inr (Or.inl ⟨rfl, h.symm⟩)
  | success html elapsed =>
      simp only [process_article] at h
      cases hp : plain_text_of san html with
      | none =>
          simp only [hp] at h
          injection h with h
          exact Or.inr (Or.inr (Or.inl ⟨html, elapsed, rfl, hp, h.symm⟩))
      | some t =>
          simp only [hp] at h
          cases ht : tok t with
          | timeoutError expired =>
              cases expired with
              | false =>
                  simp only [ht] at h
                  exact Except.noConfusion h
              | true =>
                  simp only [ht] at h
                  injection h with h
                  exact Or.inr (Or.inr (Or.inr (Or.inl
                    ⟨html, elapsed, t, rfl, hp, ht, h.symm⟩)))
          | success ws rem =>
              simp only [ht] at h
              injection h with h
              exact Or.inr (Or.inr (Or.inr (Or.inr
                ⟨html, elapsed, t, ws, rem, rfl, hp, ht, h.symm⟩)))

/-- A completed pipeline reports the URL of its own job. -/
theorem process_article_ok_url (cw : List String) (url : String) (env : Env)
    (san : Option (String → SanitizeOutcome)) (r : ResultTuple)
    (h : process_article cw url env san = .ok r) : r.url = url := by
  rcases process_article_ok_cases cw url env san r h with
    ⟨_, rfl⟩ | ⟨_, rfl⟩ | ⟨_, _, _, _, rfl⟩ | ⟨_, _, _, _, _, _, rfl⟩ |
    ⟨_, _, _, _, _, _, _, _, rfl⟩ <;> rfl

/-- A completed batch holds exactly one result tuple per spawned pipeline. -/
theorem run_pipelines_length (cw : List String)
    (san : Option (String → SanitizeOutcome)) :
    ∀ (urls : List String) (envs : Nat → Env) (rs : List ResultTuple),
      run_pipelines cw san urls envs = .ok rs → rs.length = urls.length := by
  intro urls
  induction urls with
  | nil =>
      intro envs rs h
      unfold run_pipelines at h
      injection h with h
      subst h
      rfl
  | cons url urls ih =>
      intro envs rs h
      unfold run_pipelines at h
      cases h1 : process_article cw url (envs 0) san with
      | error e =>
          rw [h1] at h
          exact Except.noConfusion h
      | ok r =>
          rw [h1] at h
          cases h2 : run_pipelines cw san urls (fun n => envs (n + 1)) with
          | error e =>
              rw [h2] at h
              exact Except.noConfusion h
          | ok rs2 =>
              rw [h2] at h
              injection h with h
              subst h
              simp [ih (fun n => envs (n + 1)) rs2 h2]

/-- A completed batch reports the submitted URLs position by position, so
duplicate URLs yield duplicate result entries. -/
theorem run_pipelines_urls (cw : List String)
    (san : Option (String → SanitizeOutcome)) :
    ∀ (urls : List String) (envs : Nat → Env) (rs : List ResultTuple),
      run_pipelines cw san urls envs = .ok rs →
      rs.map ResultTuple.url = urls := by
  intro urls
  induction urls with
  | nil =>
      intro envs rs h
      unfold run_pipelines at h
      injection h with h
      subst h
      rfl
  | cons url urls ih =>
      intro envs rs h
      unfold run_pipelines at h
      cases h1 : process_article cw url (envs 0) san with
      | error e =>
          rw [h1] at h
          exact Except.noConfusion h
      | ok r =>
          rw [h1] at h
          cases h2 : run_pipelines cw san urls (fun n => envs (n + 1)) with
          | error e =>
              rw [h2] at h
              exact Except.noConfusion h
          | ok rs2 =>
              rw [h2] at h
              injection h with h
              subst h
              simp only [List.map_cons]
              rw [process_article_ok_url cw url (envs 0) san r h1,
                ih (fun n => envs (n + 1)) rs2 h2]

/-- In a completed batch, the tuple at position `k` is exactly the outcome
of the pipeline spawned for the `k`-th URL under its own environment. -/
theorem run_pipelines_get (cw : List String)
    (san : Option (String → SanitizeOutcome)) :
    ∀ (urls : List String) (envs : Nat → Env) (rs : List ResultTuple),
      run_pipelines cw san urls envs = .ok rs →
      ∀ (k : Nat) (hk : k < urls.length) (hk2 : k < rs.length),
        process_article cw (urls.get ⟨k, hk⟩) (envs k) san =
          .ok (rs.get ⟨k, hk2⟩) := by
  intro urls
  induction urls with
  | nil =>
      intro envs rs h k hk hk2
      exact absurd hk (by simp)
  | cons url urls ih =>
      intro envs rs h k hk hk2
      unfold run_pipelines at h
      cases h1 : process_article cw url (envs 0) san with
      | error e =>
          rw [h1] at h
          exact Except.noConfusion h
      | ok r =>
          rw [h1] at h
          cases h2 : run_pipelines cw san urls (fun n => envs (n + 1)) with
          | error e =>
              rw [h2] at h
              exact Except.noConfusion h
          | ok rs2 =>
              rw [h2] at h
              injection h with h
              subst h
              cases k with
              | zero => exact h1
              | succ k =>
                  exact ih (fun n => envs (n + 1)) rs2 h2 k
                    (Nat.lt_of_succ_lt_succ hk) (Nat.lt_of_succ_lt_succ hk2)

/-! ## Claim theorems -/

/-- Claim C1: a non-success HTTP response makes `fetch` raise
`aiohttp.ClientResponseError`, which matches neither `except` clause of
`process_article`: the exception escapes the pipeline, no result with
status `FETCH_ERROR` (or any result at all) is produced. -/
theorem process_article_nonsuccess_response_escapes :
    process_article [] "http://u"
      ⟨.clientResponseError, fun _ => .timeoutError true⟩ none =
      .error .clientResponseError := rfl

/-- Claim C2 counterexample: a fetch-stage deadline expiry yields status
`TIMEOUT` with `processing_time = None`, not `fetch_timeout`: the claimed
elapsed value is absent. -/
theorem fetch_timeout_result_lacks_elapsed :
    process_article [] "http://u"
      ⟨.timeoutError true, fun _ => .timeoutError true⟩ none =
      .ok ⟨"http://u", .TIMEOUT, none, none, none⟩ ∧
    (none : Option ℚ) ≠ some fetch_timeout := ⟨rfl, by simp⟩

/-- Claim C2 amended: a fetch deadline expiry gives status `TIMEOUT` with all
numeric fields absent, and `processing_time` is present exactly when the
status is `OK` or the status is `TIMEOUT` raised at the tokenize stage
(i.e. not by the fetch deadline). -/
theorem elapsed_seconds_presence (cw : List String) (url : String)
    (env : Env) (san : Option (String → SanitizeOutcome)) :
    (env.fetch = .timeoutError true →
      process_article cw url env san = .ok ⟨url, .TIMEOUT, none, none, none⟩) ∧
    (∀ r, process_article cw url env san = .ok r →
      (r.processing_time.isSome ↔
        (r.status = .OK ∨
          (r.status = .TIMEOUT ∧ env.fetch ≠ .timeoutError true)))) := by
  constructor
  · intro hf
    simp only [process_article, hf]
  · intro r h
    rcases process_article_ok_cases cw url env san r h with
      ⟨hf, rfl⟩ | ⟨hf, rfl⟩ | ⟨html, e, hf, hp, rfl⟩ |
      ⟨html, e, t, hf, hp, ht, rfl⟩ | ⟨html, e, t, ws, rem, hf, hp, ht, rfl⟩
    · simp
    · simp [hf]
    · simp
    · simp [hf]
    · simp

/-- Claim C2 witness: the amended theorem applied to a run whose fetch deadline
expired. -/
theorem elapsed_seconds_presence_witness :
    process_article [] "http://u"
      ⟨.timeoutError true, fun _ => .timeoutError true⟩ none =
      .ok ⟨"http://u", .TIMEOUT, none, none, none⟩ ∧
    ((none : Option ℚ).isSome ↔
      (ProcessingStatus.TIMEOUT = .OK ∨
        (ProcessingStatus.TIMEOUT = .TIMEOUT ∧
          (FetchOutcome.timeoutError true : FetchOutcome) ≠
            .timeoutError true))) :=
  ⟨rfl,
   (elapsed_seconds_presence [] "http://u"
      ⟨.timeoutError true, fun _ => .timeoutError true⟩ none).2
     ⟨"http://u", .TIMEOUT, none, none, none⟩ rfl⟩

/-- Claim C3: in every completed result the score and the word count are present
exactly when the status is `OK` (hence both present or both absent). -/
theorem score_word_count_present_iff_ok (cw : List String) (url : String)
    (env : Env) (san : Option (String → SanitizeOutcome)) (r : ResultTuple)
    (h : process_article cw url env san = .ok r) :
    (r.score.isSome ↔ r.status = .OK) ∧
    (r.word_number.isSome ↔ r.status = .OK) := by
  rcases process_article_ok_cases cw url env san r h with
    ⟨_, rfl⟩ | ⟨_, rfl⟩ | ⟨_, _, _, _, rfl⟩ | ⟨_, _, _, _, _, _, rfl⟩ |
    ⟨_, _, _, _, _, _, _, _, rfl⟩ <;> simp

/-- Claim C3 witness: the theorem applied to a completed `OK` run. -/
theorem score_word_count_present_iff_ok_witness :
    process_article [] "http://u"
      ⟨.success "txt" 1, fun _ => .success ["w"] 2⟩ none =
      .ok ⟨"http://u", .OK, some (calculate_jaundice_rate ["w"] []), some 1,
           some (tokenize_timeout - 2)⟩ ∧
    (((some (calculate_jaundice_rate ["w"] [])).isSome ↔
        ProcessingStatus.OK = .OK) ∧
      ((some 1 : Option Nat).isSome ↔ ProcessingStatus.OK = .OK)) :=
  ⟨rfl,
   score_word_count_present_iff_ok [] "http://u"
     ⟨.success "txt" 1, fun _ => .success ["w"] 2⟩ none
     ⟨"http://u", .OK, some (calculate_jaundice_rate ["w"] []), some 1,
      some (tokenize_timeout - 2)⟩ rfl⟩

/-- Claim C4 counterexample: a batch containing one URL whose server answers
with a non-success status produces no result for that job at all: the
`ClientResponseError` escapes the pipeline, the task group aborts, and the
handler raises instead of returning one result per job. -/
theorem batch_aborts_on_unclassified_failure :
    handle_root_get_request [] (fun t => .success t) (some "http://u")
      (fun _ => ⟨.clientResponseError, fun _ => .timeoutError true⟩) =
      .error .clientResponseError := by
  have hne : ¬("http://u" = "") := by decide
  have hsplit : split_on_comma "http://u" = ["http://u"] := by decide
  simp only [handle_root_get_request, hsplit, if_neg hne]
  norm_num [run_pipelines, process_article]

/-- Claim C4 amended: provided no pipeline raises an unclassified exception, the
batch response holds exactly one result per submitted URL, position by
position, so duplicates are preserved; a missing or empty `urls` parameter
yields the empty JSON object. -/
theorem one_result_per_job (cw : List String)
    (inosmi : String → SanitizeOutcome) :
    (∀ envs, handle_root_get_request cw inosmi none envs = .ok .emptyJson) ∧
    (∀ envs,
      handle_root_get_request cw inosmi (some "") envs = .ok .emptyJson) ∧
    (∀ (v : String) (envs : Nat → Env) (out : List UrlResult),
      handle_root_get_request cw inosmi (some v) envs = .ok (.jsonArray out) →
      out.length = (split_on_comma v).length ∧
      out.map UrlResult.url = split_on_comma v) := by
  refine ⟨fun envs => rfl, fun envs => rfl, ?_⟩
  intro v envs out h
  simp only [handle_root_get_request] at h
  by_cases hv : v = ""
  · rw [if_pos hv] at h
    injection h with h
    exact RequestResponse.noConfusion h
  · rw [if_neg hv] at h
    by_cases hlen : (split_on_comma v).length > 10
    · rw [if_pos hlen] at h
      injection h with h
      exact RequestResponse.noConfusion h
    · rw [if_neg hlen] at h
      cases hrun : run_pipelines cw (some inosmi) (split_on_comma v) envs with
      | error e =>
          rw [hrun] at h
          exact Except.noConfusion h
      | ok results =>
          rw [hrun] at h
          injection h with h
          injection h with h
          subst h
          constructor
          · rw [List.length_map]
            exact run_pipelines_length cw (some inosmi) (split_on_comma v)
              envs results hrun
          · rw [List.map_map]
            exact run_pipelines_urls cw (some inosmi) (split_on_comma v)
              envs results hrun

/-- Claim C4 witness: a two-job batch with the same URL submitted twice yields
two result entries, both reporting that URL. -/
theorem one_result_per_job_witness :
    handle_root_get_request [] (fun t => .success t) (some "http://a,http://a")
      (fun _ => ⟨.success "txt" 1, fun _ => .success ["w"] 2⟩) =
      .ok (.jsonArray [⟨"OK", "http://a", some 0, some 1⟩,
                       ⟨"OK", "http://a", some 0, some 1⟩]) ∧
    ([⟨"OK", "http://a", some 0, some 1⟩,
      ⟨"OK", "http://a", some 0, some 1⟩] : List UrlResult).length =
        (split_on_comma "http://a,http://a").length ∧
    ([⟨"OK", "http://a", some 0, some 1⟩,
      ⟨"OK", "http://a", some 0, some 1⟩] : List UrlResult).map
        UrlResult.url = split_on_comma "http://a,http://a" := by
  have hrun : handle_root_get_request [] (fun t => .success t)
      (some "http://a,http://a")
      (fun _ => ⟨.success "txt" 1, fun _ => .success ["w"] 2⟩) =
      .ok (.jsonArray [⟨"OK", "http://a", some 0, some 1⟩,
                       ⟨"OK", "http://a", some 0, some 1⟩]) := by
    have hne : ¬("http://a,http://a" = "") := by decide
    have hsplit : split_on_comma "http://a,http://a" =
        ["http://a", "http://a"] := by decide
    simp only [handle_root_get_request, hsplit, if_neg hne]
    norm_num [run_pipelines, process_article, plain_text_of,
      calculate_jaundice_rate, tokenize_timeout, TIMEOUT_SECONDS,
      ProcessingStatus.name, round_eq]
  exact ⟨hrun,
    (one_result_per_job [] (fun t => .success t)).2.2 "http://a,http://a"
      (fun _ => ⟨.success "txt" 1, fun _ => .success ["w"] 2⟩)
      [⟨"OK", "http://a", some 0, some 1⟩,
       ⟨"OK", "http://a", some 0, some 1⟩] hrun⟩

/-- Claim C5 counterexample: two pipelines, the first hitting an unclassified
failure (non-success HTTP response) and the second fast and successful.
The failure aborts the whole batch: the second pipeline's completed `OK`
result is absent from the output, although the identical batch without
that failure reports both results. -/
theorem sibling_result_lost_on_unclassified_failure :
    handle_root_get_request [] (fun t => .success t) (some "http://a,http://b")
      (fun n => if n = 0
        then ⟨.clientResponseError, fun _ => .timeoutError true⟩
        else ⟨.success "txt" 1, fun _ => .success ["w"] 2⟩) =
      .error .clientResponseError ∧
    handle_root_get_request [] (fun t => .success t) (some "http://a,http://b")
      (fun n => if n = 0
        then ⟨.success "txt" 1, fun _ => .success ["w"] 2⟩
        else ⟨.success "txt" 1, fun _ => .success ["w"] 2⟩) =
      .ok (.jsonArray [⟨"OK", "http://a", some 0, some 1⟩,
                       ⟨"OK", "http://b", some 0, some 1⟩]) := by
  have hne : ¬("http://a,http://b" = "") := by decide
  have hsplit : split_on_comma "http://a,http://b" = ["http://a", "http://b"] :=
    by decide
  constructor
  · simp only [handle_root_get_request, hsplit, if_neg hne]
    norm_num [run_pipelines, process_article]
  · simp only [handle_root_get_request, hsplit, if_neg hne]
    norm_num [run_pipelines, process_article, plain_text_of,
      calculate_jaundice_rate, tokenize_timeout, TIMEOUT_SECONDS,
      ProcessingStatus.name, round_eq]

/-- Claim C5 amended: among completed batches, changing only pipeline `j`'s
environment (for example to a deadline-violating one) leaves the result of
every other pipeline unchanged, and every pipeline contributes exactly one
terminal result. -/
theorem pipeline_isolation (cw : List String)
    (san : Option (String → SanitizeOutcome)) (urls : List String)
    (envs envs2 : Nat → Env) (j : Nat)
    (hagree : ∀ k, k ≠ j → envs k = envs2 k) (rs rs2 : List ResultTuple)
    (h1 : run_pipelines cw san urls envs = .ok rs)
    (h2 : run_pipelines cw san urls envs2 = .ok rs2) :
    rs.length = urls.length ∧ rs2.length = urls.length ∧
    ∀ (k : Nat) (hk : k < rs.length) (hk2 : k < rs2.length), k ≠ j →
      rs.get ⟨k, hk⟩ = rs2.get ⟨k, hk2⟩ := by
  have hl1 := run_pipelines_length cw san urls envs rs h1
  have hl2 := run_pipelines_length cw san urls envs2 rs2 h2
  refine ⟨hl1, hl2, ?_⟩
  intro k hk hk2 hkj
  have hku : k < urls.length := hl1 ▸ hk
  have g1 := run_pipelines_get cw san urls envs rs h1 k hku hk
  have g2 := run_pipelines_get cw san urls envs2 rs2 h2 k hku hk2
  rw [hagree k hkj] at g1
  rw [g1] at g2
  exact Except.ok.inj g2

/-- Claim C5 witness: a two-job batch where only the first pipeline's
environment is changed to a fetch-deadline violation; the second
pipeline's `OK` result is bit-for-bit unchanged. -/
theorem pipeline_isolation_witness :
    ([⟨"http://a", .OK, some 0, some 1, some 3⟩,
      ⟨"http://b", .OK, some 0, some 1, some 3⟩] :
        List ResultTuple).length = ["http://a", "http://b"].length ∧
    ([⟨"http://a", .TIMEOUT, none, none, none⟩,
      ⟨"http://b", .OK, some 0, some 1, some 3⟩] :
        List ResultTuple).length = ["http://a", "http://b"].length ∧
    ∀ (k : Nat)
      (hk : k < ([⟨"http://a", .OK, some 0, some 1, some 3⟩,
          ⟨"http://b", .OK, some 0, some 1, some 3⟩] :
            List ResultTuple).length)
      (hk2 : k < ([⟨"http://a", .TIMEOUT, none, none, none⟩,
          ⟨"http://b", .OK, some 0, some 1, some 3⟩] :
            List ResultTuple).length), k ≠ 0 →
      ([⟨"http://a", .OK, some 0, some 1, some 3⟩,
        ⟨"http://b", .OK, some 0, some 1, some 3⟩] :
          List ResultTuple).get ⟨k, hk⟩ =
      ([⟨"http://a", .TIMEOUT, none, none, none⟩,
        ⟨"http://b", .OK, some 0, some 1, some 3⟩] :
          List ResultTuple).get ⟨k, hk2⟩ :=
  pipeline_isolation [] none ["http://a", "http://b"]
    (fun n => if n = 0
      then ⟨.success "txt" 1, fun _ => .success ["w"] 2⟩
      else ⟨.success "txt" 1, fun _ => .success ["w"] 2⟩)
    (fun n => if n = 0
      then ⟨.timeoutError true, fun _ => .timeoutError true⟩
      else ⟨.success "txt" 1, fun _ => .success ["w"] 2⟩)
    0 (by intro k hk; simp [hk])
    [⟨"http://a", .OK, some 0, some 1, some 3⟩,
     ⟨"http://b", .OK, some 0, some 1, some 3⟩]
    [⟨"http://a", .TIMEOUT, none, none, none⟩,
     ⟨"http://b", .OK, some 0, some 1, some 3⟩]
    (by norm_num [run_pipelines, process_article, plain_text_of,
      calculate_jaundice_rate, tokenize_timeout, TIMEOUT_SECONDS, round_eq])
    (by norm_num [run_pipelines, process_article, plain_text_of,
      calculate_jaundice_rate, tokenize_timeout, TIMEOUT_SECONDS, round_eq])

/-- Claim C6: when fetch and extraction succeed, a tokenize-deadline expiry
yields status `TIMEOUT` with `processing_time` equal to the full tokenize
budget, while a successful tokenization yields status `OK` with
`processing_time` equal to the budget minus the deadline's remaining time
(the stage's actual wall time), not the full budget. -/
theorem tokenize_timeout_and_elapsed (cw : List String) (url : String)
    (env : Env) (san : Option (String → SanitizeOutcome))
    (html : String) (e : ℚ) (t : String)
    (hf : env.fetch = .success html e) (hp : plain_text_of san html = some t) :
    (env.tokenize t = .timeoutError true →
      process_article cw url env san =
        .ok ⟨url, .TIMEOUT, none, none, some tokenize_timeout⟩) ∧
    (∀ (ws : List String) (rem : ℚ), env.tokenize t = .success ws rem →
      process_article cw url env san =
        .ok ⟨url, .OK, some (calculate_jaundice_rate ws cw), some ws.length,
             some (tokenize_timeout - rem)⟩) := by
  constructor
  · intro ht
    simp only [process_article, hf, hp, ht]
  · intro ws rem ht
    simp only [process_article, hf, hp, ht]

/-- Claim C6 witness: the theorem applied to a run whose tokenize deadline
expired (full budget recorded) and to a run that tokenized in time
(budget minus remaining recorded). -/
theorem tokenize_timeout_and_elapsed_witness :
    process_article [] "http://u"
      ⟨.success "txt" 1, fun _ => .timeoutError true⟩ none =
      .ok ⟨"http://u", .TIMEOUT, none, none, some tokenize_timeout⟩ ∧
    process_article [] "http://u"
      ⟨.success "txt" 1, fun _ => .success ["w"] 2⟩ none =
      .ok ⟨"http://u", .OK, some (calculate_jaundice_rate ["w"] []), some 1,
           some (tokenize_timeout - 2)⟩ :=
  ⟨(tokenize_timeout_and_elapsed [] "http://u"
      ⟨.success "txt" 1, fun _ => .timeoutError true⟩ none "txt" 1 "txt"
      rfl rfl).1 rfl,
   (tokenize_timeout_and_elapsed [] "http://u"
      ⟨.success "txt" 1, fun _ => .success ["w"] 2⟩ none "txt" 1 "txt"
      rfl rfl).2 ["w"] 2 rfl⟩

/-- Claim C7 counterexample: in the source both stage deadlines are the single
module-level constant `TIMEOUT_SECONDS = 5`; there are no per-stage
configuration parameters, so the budgets cannot differ. -/
theorem stage_budgets_single_constant :
    fetch_timeout = tokenize_timeout ∧ fetch_timeout = TIMEOUT_SECONDS ∧
    tokenize_timeout = TIMEOUT_SECONDS ∧ TIMEOUT_SECONDS = 5 :=
  ⟨rfl, rfl, rfl, rfl⟩

/-- Claim C7 amended: the tokenize stage runs under its own deadline context,
unaffected by how much wall time the fetch stage consumed (the two
deadlines share no clock), but both budgets are the one module constant
`TIMEOUT_SECONDS`, not independently configurable values. -/
theorem stage_deadlines_independent (cw : List String) (url : String)
    (html : String) (e1 e2 : ℚ) (tok : String → TokenizeOutcome)
    (san : Option (String → SanitizeOutcome)) :
    process_article cw url ⟨.success html e1, tok⟩ san =
      process_article cw url ⟨.success html e2, tok⟩ san ∧
    fetch_timeout = TIMEOUT_SECONDS ∧ tokenize_timeout = TIMEOUT_SECONDS :=
  ⟨rfl, rfl, rfl⟩

/-- Claim C8 counterexample: a request with the `urls` parameter missing is
answered with the empty JSON object and a success status, not with the
claimed client-error response. -/
theorem missing_urls_parameter_not_client_error :
    handle_root_get_request [] (fun t => .success t) none
      (fun _ => ⟨.clientConnectorError, fun _ => .timeoutError true⟩) =
      .ok .emptyJson ∧
    is_client_error (.ok .emptyJson) = false := ⟨rfl, rfl⟩

/-- Claim C8 amended: the handler produces a client-error response with a JSON
error body exactly when the `urls` parameter is present, non-empty and
lists more than 10 URLs; a missing or empty parameter yields the empty
JSON object, and article-level outcomes never produce a client error. -/
theorem client_error_iff_too_many_urls (cw : List String)
    (inosmi : String → SanitizeOutcome) (urls_parameter : Option String)
    (envs : Nat → Env) :
    is_client_error
        (handle_root_get_request cw inosmi urls_parameter envs) = true ↔
    ∃ v, urls_parameter = some v ∧ v ≠ "" ∧
      10 < (split_on_comma v).length := by
  cases urls_parameter with
  | none => simp [handle_root_get_request, is_client_error]
  | some v =>
      by_cases hv : v = ""
      · subst hv
        simp [handle_root_get_request, is_client_error]
      · by_cases hlen : (split_on_comma v).length > 10
        · simp only [handle_root_get_request, if_neg hv, if_pos hlen]
          simp [is_client_error, hv, hlen]
        · simp only [handle_root_get_request, if_neg hv, if_neg hlen]
          cases hrun : run_pipelines cw (some inosmi) (split_on_comma v)
              envs with
          | error e => simp [is_client_error, hv, hlen]
          | ok results => simp [is_client_error, hv, hlen]

/-- Claim C9: with `sanitizer_func=None` the extraction stage is skipped: the
sanitize block hands the raw fetched content through unchanged, no
completed result can carry status `PARSING_ERROR`, and the pipeline's
outcome depends on the tokenizer only through its behaviour on the raw
html. -/
theorem no_sanitizer_skips_extraction (cw : List String) (url : String)
    (env : Env) :
    (∀ html, plain_text_of none html = some html) ∧
    (∀ r, process_article cw url env none = .ok r →
      r.status ≠ .PARSING_ERROR) ∧
    (∀ (html : String) (e : ℚ) (tok tok2 : String → TokenizeOutcome),
      tok html = tok2 html →
      process_article cw url ⟨.success html e, tok⟩ none =
        process_article cw url ⟨.success html e, tok2⟩ none) := by
  refine ⟨fun html => rfl, ?_, ?_⟩
  · intro r h
    rcases process_article_ok_cases cw url env none r h with
      ⟨_, rfl⟩ | ⟨_, rfl⟩ | ⟨html, e, hf, hp, rfl⟩ | ⟨_, _, _, _, _, _, rfl⟩ |
      ⟨_, _, _, _, _, _, _, _, rfl⟩
    · simp
    · simp
    · exact absurd hp (by simp [plain_text_of])
    · simp
    · simp
  · intro html e tok tok2 ht
    simp only [process_article, plain_text_of]
    rw [ht]

/-- Claim C9 witness: the theorem applied to a sanitizer-less run that ended in
a tokenize timeout; its status is not `PARSING_ERROR`. -/
theorem no_sanitizer_skips_extraction_witness :
    process_article [] "http://u"
      ⟨.success "txt" 1, fun _ => .timeoutError true⟩ none =
      .ok ⟨"http://u", .TIMEOUT, none, none, some tokenize_timeout⟩ ∧
    (ProcessingStatus.TIMEOUT : ProcessingStatus) ≠ .PARSING_ERROR :=
  ⟨rfl,
   (no_sanitizer_skips_extraction [] "http://u"
      ⟨.success "txt" 1, fun _ => .timeoutError true⟩).2.1
     ⟨"http://u", .TIMEOUT, none, none, some tokenize_timeout⟩ rfl⟩

/-- Claim C10: an `asyncio.TimeoutError` whose own deadline context has not
expired is re-raised out of `process_article` at both awaited stages, and
a completed result carries status `TIMEOUT` only when one of the two stage
deadlines actually fired. -/
theorem unexpired_timeout_reraised (cw : List String) (url : String)
    (env : Env) (san : Option (String → SanitizeOutcome)) :
    (env.fetch = .timeoutError false →
      process_article cw url env san = .error .timeoutNotExpired) ∧
    (∀ (html : String) (e : ℚ) (t : String),
      env.fetch = .success html e → plain_text_of san html = some t →
      env.tokenize t = .timeoutError false →
      process_article cw url env san = .error .timeoutNotExpired) ∧
    (∀ r, process_article cw url env san = .ok r → r.status = .TIMEOUT →
      env.fetch = .timeoutError true ∨
      ∃ t, env.tokenize t = .timeoutError true) := by
  refine ⟨?_, ?_, ?_⟩
  · intro hf
    simp only [process_article, hf]
  · intro html e t hf hp ht
    simp only [process_article, hf, hp, ht]
  · intro r h hs
    rcases process_article_ok_cases cw url env san r h with
      ⟨_, rfl⟩ | ⟨hf, rfl⟩ | ⟨_, _, _, _, rfl⟩ |
      ⟨html, e, t, hf, hp, ht, rfl⟩ | ⟨_, _, _, _, _, _, _, _, rfl⟩
    · exact absurd hs (by simp)
    · exact Or.inl hf
    · exact absurd hs (by simp)
    · exact Or.inr ⟨t, ht⟩
    · exact absurd hs (by simp)

/-- Claim C10 witness: a fetch-stage `TimeoutError` with an unexpired manager is
re-raised rather than classified. -/
theorem unexpired_timeout_reraised_witness :
    process_article [] "http://u"
      ⟨.timeoutError false, fun _ => .timeoutError true⟩ none =
      .error .timeoutNotExpired :=
  (unexpired_timeout_reraised [] "http://u"
    ⟨.timeoutError false, fun _ => .timeoutError true⟩ none).1 rfl
